import Mathlib

/-!
Verification of the EP0 control-transfer driver in
`examples/dfu-bootloader/usbfs.c` (gd32vf103inator).

The C file is embedded shallowly: machine integers become `Nat` with explicit
truncation (`% 256`, `% 65536`) where the C code truncates, hardware register
writes become elements of an `HwAction` trace, the mutable globals
(`usbfs_state`, `usbfs_outbuf`, `usbfs_reboot_on_ack`) become a `UsbfsState`
record threaded explicitly, and fallible handlers (C `int` returns where `-1`
means failure) become `Option`.

The DFU class handlers (`dfu_detach`, `dfu_dnload`, ...) live in `dfu.c`,
which is an external collaborator of this component; they are abstracted as an
opaque environment `DfuEnv`.  The headers `usbfs.h`/`dfu.h` are likewise not
part of this component's sources; the few facts taken from them are modelled
from the spec and marked as such in their doc comments.
-/

/-- The 8-byte USB setup packet (`struct usb_setup_packet`).  Field widths:
`bmRequestType`/`bRequest` are 8-bit, the `w*` fields 16-bit. -/
structure SetupPacket where
  bmRequestType : Nat
  bRequest : Nat
  wValue : Nat
  wIndex : Nat
  wLength : Nat
deriving DecidableEq

/-- The combined 16-bit dispatch code `p->request` of `struct usb_setup_packet`.
The struct lives in `usbfs.h`, which is not under `src/`.  Modelled from the
spec: "the dispatch key is the 16-bit pair (requestType, request) treated as
one combined code" with the little-endian wire layout
`requestType(1) | request(1) | ...`, so the low byte is `bmRequestType`.
The table constants in `usbfs.c` (e.g. `0x0680` for GET_DESCRIPTOR with
`bmRequestType = 0x80`, `bRequest = 0x06`) confirm this overlay. -/
def SetupPacket.request (p : SetupPacket) : Nat := p.bmRequestType + 256 * p.bRequest

/-- Identifier for the fourteen handler functions bound in
`usbfs_setup_handlers` (usbfs.c lines 508-523). -/
inductive HandlerFn where
  | getStatusDevice
  | setAddress
  | getDescriptor
  | getConfiguration
  | setConfiguration
  | clearFeatureEndpoint
  | setInterface0
  | dfuDetach
  | dfuDnload
  | dfuUpload
  | dfuGetstatus
  | dfuClrstatus
  | dfuGetstate
  | dfuAbort
deriving DecidableEq

/-- What the `const void **data` out-pointer of a handler points to after a
successful call.  `unset` models a handler that returned without writing the
pointer (e.g. `usbfs_handle_set_address`); `ext` models data owned by the
external DFU module. -/
inductive DataSrc where
  | unset
  | statusWord
  | devDesc
  | confDesc
  | strDesc (i : Nat)
  | confValue
  | ext (tag : Nat)
deriving DecidableEq

/-- Abstract semantics of the seven DFU class handlers (`dfu.c` is not part of
this component).  A handler receives the setup packet and, on the second
(payload-completion) invocation, the filled OUT buffer; it returns `none` for
`-1` or `some (len, data)` for a non-negative return. -/
def DfuEnv : Type := HandlerFn → SetupPacket → Option (List Nat) → Option (Nat × DataSrc)

/-- The environment in which every DFU class handler declines.  Used only to
instantiate theorems at concrete inputs. -/
def defaultDfuEnv : DfuEnv := fun _ _ _ => none

/-- Interface number of the single DFU interface.  `DFU_INTERFACE` is defined
in `dfu.h`, which is not under `src/`.  Modelled from the spec: the device
exposes exactly one interface (`bNumInterfaces = 1`,
`bInterfaceNumber = DFU_INTERFACE`), hence interface number 0. -/
def DFU_INTERFACE : Nat := 0

/-- One row of the dispatch table (`struct usb_setup_handler`).  In the C
struct `idx` and `len` are `uint8_t`, so the `-1` written in the initializers
is stored as `0xFF`, the wildcard value tested by `usbfs_setup_handler_run`. -/
structure usb_setup_handler where
  req : Nat
  idx : Nat
  len : Nat
  fn : HandlerFn
deriving DecidableEq

/-- The dispatch table `usbfs_setup_handlers` (usbfs.c lines 508-523), in
declaration order. -/
def usbfs_setup_handlers : List usb_setup_handler :=
  [ { req := 0x0080, idx := 0,   len := 255, fn := HandlerFn.getStatusDevice },
    { req := 0x0500, idx := 0,   len := 0,   fn := HandlerFn.setAddress },
    { req := 0x0680, idx := 255, len := 255, fn := HandlerFn.getDescriptor },
    { req := 0x0880, idx := 0,   len := 255, fn := HandlerFn.getConfiguration },
    { req := 0x0900, idx := 0,   len := 0,   fn := HandlerFn.setConfiguration },
    { req := 0x0102, idx := 0,   len := 0,   fn := HandlerFn.clearFeatureEndpoint },
    { req := 0x0b01, idx := DFU_INTERFACE, len := 0,   fn := HandlerFn.setInterface0 },
    { req := 0x0021, idx := DFU_INTERFACE, len := 0,   fn := HandlerFn.dfuDetach },
    { req := 0x0121, idx := DFU_INTERFACE, len := 255, fn := HandlerFn.dfuDnload },
    { req := 0x02a1, idx := DFU_INTERFACE, len := 255, fn := HandlerFn.dfuUpload },
    { req := 0x03a1, idx := DFU_INTERFACE, len := 255, fn := HandlerFn.dfuGetstatus },
    { req := 0x0421, idx := DFU_INTERFACE, len := 0,   fn := HandlerFn.dfuClrstatus },
    { req := 0x05a1, idx := DFU_INTERFACE, len := 255, fn := HandlerFn.dfuGetstate },
    { req := 0x0621, idx := DFU_INTERFACE, len := 0,   fn := HandlerFn.dfuAbort } ]

/-- The scan loop of `usbfs_setup_handler_run` (usbfs.c lines 531-537),
parametrised by the rule list it walks.  `uint8_t idx = p->wIndex` truncates
the 16-bit index to its low byte, hence `p.wIndex % 256`.  A rule whose code
and index match but whose fixed length differs hits the C `break`: the whole
lookup fails immediately (`none`), mirroring the fall-through to `return -1`. -/
def setup_handler_scan : List usb_setup_handler → SetupPacket → Option HandlerFn
  | [], _ => none
  | h :: rest, p =>
    if h.req == p.request && (h.idx == 255 || h.idx == p.wIndex % 256) then
      (if h.len != 255 && h.len != p.wLength then none else some h.fn)
    else setup_handler_scan rest p

/-- Size of `usbfs_descriptor_device` (usbfs.c lines 53-68): `bLength = 18`
and `sizeof(struct usb_descriptor_device) = 18`. -/
def usbfs_descriptor_device_size : Nat := 18

/-- `usbfs_descriptor_configuration1.wTotalLength = 9 + 9 + 9` (usbfs.c
line 73). -/
def usbfs_descriptor_configuration1_wTotalLength : Nat := 9 + 9 + 9

/-- `usbfs_descriptor_configuration1.bConfigurationValue = 1` (usbfs.c
line 75). -/
def usbfs_descriptor_configuration1_bConfigurationValue : Nat := 1

/-- The `bLength` fields of the five entries of `usbfs_descriptor_string`
(usbfs.c lines 100-148), in index order: language list, manufacturer,
product, serial, DFU interface name. -/
def usbfs_descriptor_string_bLengths : List Nat := [4, 16, 20, 26, 20]

/-- `usbfs_handle_get_status_device` (usbfs.c lines 387-393): always succeeds
with the 2-byte status word. -/
def usbfs_handle_get_status_device (_p : SetupPacket) : Option (Nat × DataSrc) :=
  some (2, DataSrc.statusWord)

/-- `usbfs_handle_set_address` (usbfs.c lines 395-402): programs the device
address register and returns 0; the data pointer is not written. -/
def usbfs_handle_set_address (_p : SetupPacket) : Option (Nat × DataSrc) :=
  some (0, DataSrc.unset)

/-- `usbfs_handle_get_descriptor_device` (usbfs.c lines 404-413). -/
def usbfs_handle_get_descriptor_device (index : Nat) : Option (Nat × DataSrc) :=
  if index ≠ 0 then none else some (usbfs_descriptor_device_size, DataSrc.devDesc)

/-- `usbfs_handle_get_descriptor_configuration` (usbfs.c lines 415-424). -/
def usbfs_handle_get_descriptor_configuration (index : Nat) : Option (Nat × DataSrc) :=
  if index ≠ 0 then none
  else some (usbfs_descriptor_configuration1_wTotalLength, DataSrc.confDesc)

/-- `usbfs_handle_get_descriptor_string` (usbfs.c lines 426-438). -/
def usbfs_handle_get_descriptor_string (index : Nat) : Option (Nat × DataSrc) :=
  match usbfs_descriptor_string_bLengths.get? index with
  | none => none
  | some l => some (l, DataSrc.strDesc index)

/-- `usbfs_handle_get_descriptor` (usbfs.c lines 440-469): dispatch on the
descriptor type in the high byte of `wValue`, index in the low byte.  The
debug-only `0x06` case and unknown types all return `-1`. -/
def usbfs_handle_get_descriptor (p : SetupPacket) : Option (Nat × DataSrc) :=
  if p.wValue / 256 = 1 then usbfs_handle_get_descriptor_device (p.wValue % 256)
  else if p.wValue / 256 = 2 then usbfs_handle_get_descriptor_configuration (p.wValue % 256)
  else if p.wValue / 256 = 3 then usbfs_handle_get_descriptor_string (p.wValue % 256)
  else none

/-- `usbfs_handle_get_configuration` (usbfs.c lines 471-477). -/
def usbfs_handle_get_configuration (_p : SetupPacket) : Option (Nat × DataSrc) :=
  some (1, DataSrc.confValue)

/-- `usbfs_handle_set_configuration` (usbfs.c lines 479-488). -/
def usbfs_handle_set_configuration (p : SetupPacket) : Option (Nat × DataSrc) :=
  if p.wValue ≠ usbfs_descriptor_configuration1_bConfigurationValue then none
  else some (0, DataSrc.unset)

/-- `usbfs_handle_set_interface0` (usbfs.c lines 490-499). -/
def usbfs_handle_set_interface0 (p : SetupPacket) : Option (Nat × DataSrc) :=
  if p.wValue ≠ 0 then none else some (0, DataSrc.unset)

/-- `usbfs_handle_clear_feature_endpoint` (usbfs.c lines 501-506): always
fails. -/
def usbfs_handle_clear_feature_endpoint (_p : SetupPacket) : Option (Nat × DataSrc) :=
  none

/-- Execute the handler bound to a table row: the seven standard handlers are
implemented in `usbfs.c`, the seven DFU handlers are the external environment.
`buf` is `some` of the filled OUT buffer on the payload-completion call and
`none` on a setup-time call (where the C `data` pointer is uninitialized). -/
def HandlerFn.eval (env : DfuEnv) (fn : HandlerFn) (p : SetupPacket)
    (buf : Option (List Nat)) : Option (Nat × DataSrc) :=
  match fn with
  | HandlerFn.getStatusDevice => usbfs_handle_get_status_device p
  | HandlerFn.setAddress => usbfs_handle_set_address p
  | HandlerFn.getDescriptor => usbfs_handle_get_descriptor p
  | HandlerFn.getConfiguration => usbfs_handle_get_configuration p
  | HandlerFn.setConfiguration => usbfs_handle_set_configuration p
  | HandlerFn.clearFeatureEndpoint => usbfs_handle_clear_feature_endpoint p
  | HandlerFn.setInterface0 => usbfs_handle_set_interface0 p
  | f => env f p buf

/-- Observable hardware effects of the driver, in program order: endpoint-0
arming and stalling (`usbfs_ep0in_transfer`, `usbfs_ep0in_stall`,
`usbfs_ep0out_prepare_out`, `usbfs_ep0out_prepare_setup`), a dispatch-table
handler invocation, the two `DBG` register writes of the reboot path, one
receive-FIFO packet drained (`usbfs_handle_rxdata`), and the four
connection-lifecycle branches of `USBFS_IRQHandler`. -/
inductive HwAction where
  | armIn (len : Nat)
  | stallIn
  | prepareOut
  | prepareSetup
  | runHandler (fn : HandlerFn)
  | dbgKeyUnlock
  | dbgCmdReset
  | drainRx
  | suspendEvt
  | wakeupEvt
  | busResetEvt
  | enumDoneEvt
deriving DecidableEq

/-- The trace entry recording that `usbfs_setup_handler_run` reached and
called a handler for `p` (empty when no rule matched or the scan broke on a
length mismatch, in which case no handler runs). -/
def setup_runActions (p : SetupPacket) : List HwAction :=
  match setup_handler_scan usbfs_setup_handlers p with
  | some fn => [HwAction.runHandler fn]
  | none => []

/-- `usbfs_setup_handler_run` (usbfs.c lines 525-542): scan the fixed table,
run the selected handler, `none` for `return -1`. -/
def usbfs_setup_handler_run (env : DfuEnv) (p : SetupPacket)
    (buf : Option (List Nat)) : Option (Nat × DataSrc) :=
  match setup_handler_scan usbfs_setup_handlers p with
  | some fn => HandlerFn.eval env fn p buf
  | none => none

/-- The driver's mutable state: `usbfs_state` (the IN source pointer is split
into its target `inData` and byte offset `inOff`, the OUT cursor is the end of
`outBuf`), the stored setup packet and received OUT words of `usbfs_outbuf`
(a union: storing a new setup packet rewinds the OUT cursor to the start of
the data area, modelled by clearing `outBuf`), and `usbfs_reboot_on_ack`. -/
structure UsbfsState where
  bytes : Nat
  inData : DataSrc
  inOff : Nat
  rebootOnAck : Bool
  setup : SetupPacket
  outBuf : List Nat
deriving DecidableEq

/-- The packet length programmed by `usbfs_ep0in_transfer` (usbfs.c lines
185-209): at most 64 bytes of the remaining count, a zero-length packet when
the remaining count is zero. -/
def usbfs_ep0in_transfer_len (bytes : Nat) : Nat := min bytes 64

/-- `usbfs_handle_setup` (usbfs.c lines 544-587), parametrised by the receive
buffer capacity `cap` (`ARRAY_SIZE(usbfs_outbuf.data) = DFU_TRANSFERSIZE`;
`dfu.h` is not under `src/`, so the capacity is modelled from the spec as a
parameter).  The function first zeroes `usbfs_state.bytes`, then branches on
the direction bit 7 of `bmRequestType`:
device-to-host runs the dispatch immediately and arms the IN data stage with
`min(ret, wLength)` bytes plus an OUT arming for the status ack; host-to-device
with `wLength == 0` runs the dispatch and sends an empty IN ack only when the
handler returned exactly 0; host-to-device with `0 < wLength <= cap` defers
dispatch and arms OUT reception; everything else stalls IN and re-arms
SETUP-only reception. -/
def usbfs_handle_setup (env : DfuEnv) (cap : Nat) (s : UsbfsState) :
    UsbfsState × List HwAction :=
  if s.setup.bmRequestType.testBit 7 then
    match usbfs_setup_handler_run env s.setup none with
    | some (r, d) =>
        ({ s with bytes := min r s.setup.wLength, inData := d, inOff := 0 },
         setup_runActions s.setup ++
           [HwAction.armIn (usbfs_ep0in_transfer_len (min r s.setup.wLength)),
            HwAction.prepareOut])
    | none =>
        ({ s with bytes := 0 },
         setup_runActions s.setup ++ [HwAction.stallIn, HwAction.prepareSetup])
  else if s.setup.wLength = 0 then
    match usbfs_setup_handler_run env s.setup none with
    | some (0, _) =>
        ({ s with bytes := 0 },
         setup_runActions s.setup ++
           [HwAction.armIn (usbfs_ep0in_transfer_len 0), HwAction.prepareSetup])
    | _ =>
        ({ s with bytes := 0 },
         setup_runActions s.setup ++ [HwAction.stallIn, HwAction.prepareSetup])
  else if s.setup.wLength ≤ cap then
    ({ s with bytes := s.setup.wLength }, [HwAction.prepareOut])
  else
    ({ s with bytes := 0 }, [HwAction.stallIn, HwAction.prepareSetup])

/-- The endpoint-0 interrupt flags read and cleared at the top of
`usbfs_handle_ep0`: `USBFS_DOEPINTF_STPF` (SETUP complete),
`USBFS_DIEPINTF_TF` (IN transfer complete), `USBFS_DOEPINTF_TF` (OUT transfer
complete). -/
structure Ep0Flags where
  stpf : Bool
  itf : Bool
  otf : Bool
deriving DecidableEq

/-- The IN-transfer-complete flag configuration. -/
def inTFflags : Ep0Flags := { stpf := false, itf := true, otf := false }

/-- The OUT-transfer-complete flag configuration. -/
def outTFflags : Ep0Flags := { stpf := false, itf := false, otf := true }

/-- `usbfs_handle_ep0` (usbfs.c lines 589-645).  `residual` is the value of
`USBFS->DOEP[0].LEN & USBFS_DOEPLEN_TLEN_Msk` after an OUT completion, so the
byte count the hardware actually received is `64 - residual`.  The result's
third component is `true` exactly when the reboot path was taken: the two
`DBG` writes trigger a system reset and `__builtin_unreachable()` documents
that control never returns, so no further action follows them.
Branch order mirrors the C: a pending SETUP flag is handled first and
exclusively; otherwise a zero remaining count checks the reboot flag and
returns; otherwise an IN completion either re-arms the next chunk (when more
than 64 bytes remain) or finishes; otherwise an OUT completion either counts
the received bytes and re-arms OUT, or (payload complete) re-runs the dispatch
on the stored setup packet with the filled buffer, acks or stalls, and re-arms
SETUP-only reception. -/
def usbfs_handle_ep0 (env : DfuEnv) (cap : Nat) (residual : Nat) (f : Ep0Flags)
    (s : UsbfsState) : UsbfsState × List HwAction × Bool :=
  if f.stpf then
    ((usbfs_handle_setup env cap s).1, (usbfs_handle_setup env cap s).2, false)
  else if s.bytes = 0 then
    (if s.rebootOnAck then (s, [HwAction.dbgKeyUnlock, HwAction.dbgCmdReset], true)
     else (s, [], false))
  else if f.itf then
    (if 64 < s.bytes then
      ({ s with inOff := s.inOff + 64, bytes := s.bytes - 64 },
       [HwAction.armIn (usbfs_ep0in_transfer_len (s.bytes - 64))], false)
    else ({ s with bytes := 0 }, [], false))
  else if f.otf then
    (if 64 - residual < s.bytes then
      ({ s with bytes := s.bytes - (64 - residual) }, [HwAction.prepareOut], false)
    else
      match usbfs_setup_handler_run env s.setup (some s.outBuf) with
      | some (0, _) =>
          ({ s with bytes := 0 },
           setup_runActions s.setup ++
             [HwAction.armIn (usbfs_ep0in_transfer_len 0), HwAction.prepareSetup],
           false)
      | _ =>
          ({ s with bytes := 0 },
           setup_runActions s.setup ++ [HwAction.stallIn, HwAction.prepareSetup],
           false))
  else (s, [], false)

/-- Fire IN-transfer-complete events repeatedly (each one is a hardware
interrupt routed to `usbfs_handle_ep0` with only `USBFS_DIEPINTF_TF` set)
until the remaining count reaches zero, collecting the emitted actions.
`fuel` bounds the number of events; any `fuel ≥ s.bytes` is enough. -/
def iterInEvents (env : DfuEnv) (cap : Nat) : Nat → UsbfsState → List HwAction
  | 0, _ => []
  | fuel + 1, s =>
    if s.bytes = 0 then []
    else
      (usbfs_handle_ep0 env cap 0 inTFflags s).2.1 ++
        iterInEvents env cap fuel (usbfs_handle_ep0 env cap 0 inTFflags s).1

/-- The lengths of the IN packets armed in an action trace. -/
def armedLens (acts : List HwAction) : List Nat :=
  acts.filterMap (fun a => match a with | HwAction.armIn l => some l | _ => none)

/-- The full sequence of armed IN packet lengths for a data stage of
`s.bytes` declared bytes: the initial `usbfs_ep0in_transfer` performed by
`usbfs_handle_setup`, followed by the packets armed by the subsequent
IN-transfer-complete events. -/
def inStageChunks (env : DfuEnv) (cap : Nat) (s : UsbfsState) (fuel : Nat) :
    List Nat :=
  usbfs_ep0in_transfer_len s.bytes :: armedLens (iterInEvents env cap fuel s)

/-- One packet popped from the shared receive FIFO: the fields of the
`GRSTATP` status word consumed by `usbfs_handle_rxdata` (endpoint number,
byte count, whether `RPCKST` says SETUP) together with the 32-bit data words
that follow it in the FIFO (`ceil(bcount/4)` of them). -/
structure RxPacket where
  epnum : Nat
  bcount : Nat
  isSetup : Bool
  words : List Nat
deriving DecidableEq

/-- The discard loop of the SETUP branch of `usbfs_handle_rxdata` (usbfs.c
line 673): `for (; len > 8; len -= 4)` pops and discards one FIFO word per
iteration; what is left of the FIFO afterwards starts with the two words that
get stored. -/
def setup_discard_loop : Nat → List Nat → List Nat
  | _, [] => []
  | len, w :: rest =>
    if 8 < len then setup_discard_loop (len - 4) rest else w :: rest

/-- The store loop of the OUT-data branch of `usbfs_handle_rxdata` (usbfs.c
lines 679-684): `while (1)` stores one word, stops after the word that
brings `len` to 4 or below; `ceil(len/4)` words in total. -/
def ep0out_store_words : Nat → List Nat → List Nat
  | _, [] => []
  | len, w :: rest =>
    w :: (if len ≤ 4 then [] else ep0out_store_words (len - 4) rest)

/-- Reassemble the two 32-bit words stored into the `usbfs_outbuf` union as
the setup-packet fields.  The union and `struct usb_setup_packet` live in
`usbfs.h`, not under `src/`.  Modelled from the spec: the 8-byte little-endian
wire layout `requestType(1) | request(1) | value(2) | index(2) | length(2)`,
so word 0 holds `bmRequestType`, `bRequest`, `wValue` and word 1 holds
`wIndex`, `wLength`. -/
def wordsToSetup (w0 w1 : Nat) : SetupPacket :=
  { bmRequestType := w0 % 256
    bRequest := w0 / 256 % 256
    wValue := w0 / 65536 % 65536
    wIndex := w1 % 65536
    wLength := w1 / 65536 % 65536 }

/-- `usbfs_handle_rxdata` (usbfs.c lines 656-686): data for endpoints other
than 0 is logged and ignored, a zero byte count returns, a SETUP packet keeps
only the last two words (discarding stale leading words) and stores them as
the setup packet — rewinding the OUT cursor to the start of the data area,
modelled by clearing `outBuf` — and an OUT data packet appends its words at
the OUT cursor. -/
def usbfs_handle_rxdata (pk : RxPacket) (s : UsbfsState) : UsbfsState :=
  if pk.epnum ≠ 0 then s
  else if pk.bcount = 0 then s
  else if pk.isSetup then
    { s with
        setup := wordsToSetup ((setup_discard_loop pk.bcount pk.words).headD 0)
                   ((setup_discard_loop pk.bcount pk.words).tail.headD 0),
        outBuf := [] }
  else
    { s with outBuf := s.outBuf ++ ep0out_store_words pk.bcount pk.words }

/-- The interrupt-time inputs of one `USBFS_IRQHandler` invocation: the
receive-FIFO contents (the `RXFNEIF` flag of `GINTF` reads as "set" exactly
while packets remain), the endpoint-interrupt flag (`OEPIF | IEPIF`, routed
through `usbfs_handle_endpoints` checking `DAEPINT & 0x10001`), the EP0
endpoint flags and OUT residual, and the four connection-lifecycle flags. -/
structure IrqInput where
  rx : List RxPacket
  epFlag : Bool
  ep0flags : Ep0Flags
  residual : Nat
  sp : Bool
  wkup : Bool
  rst : Bool
  enumf : Bool
deriving DecidableEq

/-- The FIFO drain loop of `USBFS_IRQHandler` (usbfs.c lines 696-699):
`while (flags & RXFNEIF) { usbfs_handle_rxdata(); flags = GINTF; }` — one
`usbfs_handle_rxdata` call per queued packet, re-reading the flag each time,
until the FIFO is empty. -/
def usbfs_drain_loop : List RxPacket → UsbfsState → UsbfsState × List HwAction
  | [], s => (s, [])
  | pk :: rest, s =>
    ((usbfs_drain_loop rest (usbfs_handle_rxdata pk s)).1,
     HwAction.drainRx :: (usbfs_drain_loop rest (usbfs_handle_rxdata pk s)).2)

/-- `usbfs_handle_endpoints` (usbfs.c lines 647-654): route to
`usbfs_handle_ep0` when the endpoint-0 bits of `DAEPINT` are set. -/
def usbfs_handle_endpoints (env : DfuEnv) (cap : Nat) (residual : Nat)
    (epFlag : Bool) (f : Ep0Flags) (s : UsbfsState) :
    UsbfsState × List HwAction × Bool :=
  if epFlag then usbfs_handle_ep0 env cap residual f s else (s, [], false)

/-- The connection-lifecycle tail of `USBFS_IRQHandler` (usbfs.c lines
704-737), applied to the result `e` of the endpoint phase.  If the endpoint
phase took the non-returning reboot path nothing further runs; a suspend
flag handles suspend and returns early; otherwise wakeup, bus reset (which
clears the internal transfer state, `usbfs_reset` line 369) and
enumeration-done are handled in order. -/
def usbfs_irq_after_drain (inp : IrqInput)
    (e : UsbfsState × List HwAction × Bool) : UsbfsState × List HwAction × Bool :=
  if e.2.2 then (e.1, e.2.1, true)
  else if inp.sp then (e.1, e.2.1 ++ [HwAction.suspendEvt], false)
  else
    ((if inp.rst then { e.1 with bytes := 0 } else e.1),
     e.2.1 ++ (if inp.wkup then [HwAction.wakeupEvt] else [])
          ++ (if inp.rst then [HwAction.busResetEvt] else [])
          ++ (if inp.enumf then [HwAction.enumDoneEvt] else []),
     false)

/-- The endpoint-and-lifecycle phase of `USBFS_IRQHandler`, run on the state
left after the FIFO has been drained. -/
def usbfs_irq_post (env : DfuEnv) (cap : Nat) (inp : IrqInput)
    (s1 : UsbfsState) : UsbfsState × List HwAction × Bool :=
  usbfs_irq_after_drain inp
    (usbfs_handle_endpoints env cap inp.residual inp.epFlag inp.ep0flags s1)

/-- `USBFS_IRQHandler` (usbfs.c lines 688-738): drain the receive FIFO
completely first, then the endpoint phase on the drained state, then the
lifecycle flags; the emitted trace is the drain actions followed by the
actions of the later phases. -/
def USBFS_IRQHandler (env : DfuEnv) (cap : Nat) (inp : IrqInput)
    (s : UsbfsState) : UsbfsState × List HwAction × Bool :=
  ((usbfs_irq_post env cap inp (usbfs_drain_loop inp.rx s).1).1,
   (usbfs_drain_loop inp.rx s).2 ++
     (usbfs_irq_post env cap inp (usbfs_drain_loop inp.rx s).1).2.1,
   (usbfs_irq_post env cap inp (usbfs_drain_loop inp.rx s).1).2.2)

/-- A driver state with `bytes = n`, everything else empty.  Used to
instantiate theorems at concrete inputs. -/
def stateWithBytes (n : Nat) : UsbfsState :=
  { bytes := n, inData := DataSrc.unset, inOff := 0, rebootOnAck := false,
    setup := { bmRequestType := 0, bRequest := 0, wValue := 0, wIndex := 0, wLength := 0 },
    outBuf := [] }

/-- The `usbfs_ep0in_transfer` of a zero remaining count arms a zero-length
packet. -/
theorem usbfs_ep0in_transfer_len_zero : usbfs_ep0in_transfer_len 0 = 0 := rfl

/-- `usbfs_handle_setup` never reads the prior remaining count: it starts by
zeroing `usbfs_state.bytes` (usbfs.c line 549), so its result from any
in-flight state equals its result from the emptied state. -/
theorem usbfs_handle_setup_ignores_bytes (env : DfuEnv) (cap : Nat)
    (s : UsbfsState) (b : Nat) :
    usbfs_handle_setup env cap { s with bytes := b } =
      usbfs_handle_setup env cap { s with bytes := 0 } := rfl

/-- When the SETUP-complete flag is set, `usbfs_handle_ep0` routes to
`usbfs_handle_setup` and returns, never reaching the data-transfer branches. -/
theorem usbfs_handle_ep0_stpf (env : DfuEnv) (cap residual : Nat)
    (f : Ep0Flags) (s : UsbfsState) (hf : f.stpf = true) :
    usbfs_handle_ep0 env cap residual f s =
      ((usbfs_handle_setup env cap s).1, (usbfs_handle_setup env cap s).2,
       false) := by
  simp [usbfs_handle_ep0, hf]

/-- C10: the dispatch scan compares only the low 8 bits of `wIndex`
(`uint8_t idx = p->wIndex`, usbfs.c line 528): two packets with the same
combined request code, the same `wIndex mod 256` and the same `wLength`
resolve identically over any rule list, so high-byte-only differences in
`wIndex` never prevent (or enable) a match. -/
theorem usbfs_idx_low8_spec (rules : List usb_setup_handler)
    (p q : SetupPacket) (h1 : p.request = q.request)
    (h2 : p.wIndex % 256 = q.wIndex % 256) (h3 : p.wLength = q.wLength) :
    setup_handler_scan rules p = setup_handler_scan rules q := by
  induction rules with
  | nil => rfl
  | cons h rest ih =>
    simp only [setup_handler_scan]
    rw [h1, h2, h3, ih]

/-- Witness for C10: a GET_STATUS(device) packet with `wIndex = 0x0100`
resolves exactly like the one with `wIndex = 0`, namely to the
`usbfs_handle_get_status_device` rule (whose fixed interface index is 0),
because only the low byte of `wIndex` is compared. -/
theorem usbfs_idx_low8_spec_wit :
    setup_handler_scan usbfs_setup_handlers
        { bmRequestType := 0x80, bRequest := 0, wValue := 0, wIndex := 0x0100, wLength := 2 } =
      setup_handler_scan usbfs_setup_handlers
        { bmRequestType := 0x80, bRequest := 0, wValue := 0, wIndex := 0, wLength := 2 } ∧
    setup_handler_scan usbfs_setup_handlers
        { bmRequestType := 0x80, bRequest := 0, wValue := 0, wIndex := 0x0100, wLength := 2 } =
      some HandlerFn.getStatusDevice := by
  have h := usbfs_idx_low8_spec usbfs_setup_handlers
    { bmRequestType := 0x80, bRequest := 0, wValue := 0, wIndex := 0x0100, wLength := 2 }
    { bmRequestType := 0x80, bRequest := 0, wValue := 0, wIndex := 0, wLength := 2 }
    rfl (by decide) rfl
  exact ⟨h, h.trans (by decide)⟩

/-- Counterexample for C1: the claim predicts that a rule matching on code
and index but with a different fixed length is skipped and the scan continues,
so that scanning `[r1, r2]` would behave like scanning `[r2]` and select `r2`.
On the code the first rule hits `break` (usbfs.c line 534): the scan of
`[r1, r2]` fails outright while the scan of `[r2]` alone selects `r2`. -/
theorem usbfs_scan_break_cex :
    setup_handler_scan
        [ { req := 0x21, idx := 0, len := 0, fn := HandlerFn.dfuDetach },
          { req := 0x21, idx := 0, len := 2, fn := HandlerFn.dfuAbort } ]
        { bmRequestType := 0x21, bRequest := 0, wValue := 0, wIndex := 0, wLength := 2 } = none ∧
    setup_handler_scan
        [ { req := 0x21, idx := 0, len := 2, fn := HandlerFn.dfuAbort } ]
        { bmRequestType := 0x21, bRequest := 0, wValue := 0, wIndex := 0, wLength := 2 } =
      some HandlerFn.dfuAbort := by
  decide

/-- C1 (amended): in dispatch resolution, when the scan reaches a rule whose
code and interface index match the packet but whose fixed (non-wildcard)
expected length differs from the packet's `wLength`, the scan terminates
immediately and the whole lookup fails; the subsequent rules are never
consulted, so a later rule with the same code and index but a different fixed
length can never match. -/
theorem usbfs_scan_len_mismatch_aborts (p : SetupPacket)
    (h : usb_setup_handler) (rest : List usb_setup_handler)
    (h1 : h.req = p.request) (h2 : h.idx = 255 ∨ h.idx = p.wIndex % 256)
    (h3 : h.len ≠ 255) (h4 : h.len ≠ p.wLength) :
    setup_handler_scan (h :: rest) p = none := by
  rcases h2 with h2 | h2 <;> simp [setup_handler_scan, h1, h2, h3, h4]

/-- Witness for the amended C1: a DFU_DETACH-coded packet with `wLength = 2`
reaches the detach rule (fixed length 0), and the scan aborts with failure
even though a hypothetical later rule with the same code and length 2 would
have matched. -/
theorem usbfs_scan_len_mismatch_aborts_wit :
    setup_handler_scan
        [ { req := 0x21, idx := 0, len := 0, fn := HandlerFn.dfuDetach },
          { req := 0x21, idx := 0, len := 2, fn := HandlerFn.dfuAbort } ]
        { bmRequestType := 0x21, bRequest := 0, wValue := 0, wIndex := 0, wLength := 2 } = none := by
  exact usbfs_scan_len_mismatch_aborts
    { bmRequestType := 0x21, bRequest := 0, wValue := 0, wIndex := 0, wLength := 2 }
    { req := 0x21, idx := 0, len := 0, fn := HandlerFn.dfuDetach }
    [ { req := 0x21, idx := 0, len := 2, fn := HandlerFn.dfuAbort } ]
    (by decide) (Or.inr (by decide)) (by decide) (by decide)

/-- C4: a host-to-device setup packet with a non-zero declared length larger
than the receive buffer capacity is rejected before any OUT byte is accepted:
`usbfs_handle_setup` stalls IN and re-arms SETUP-only reception, arms no OUT
reception, invokes no handler, leaves the transfer state empty (`bytes = 0`,
the unconditional reset of usbfs.c line 549) and leaves the receive buffer
and every other state component untouched. -/
theorem usbfs_oversized_reject_spec (env : DfuEnv) (cap : Nat)
    (s : UsbfsState) (hdir : s.setup.bmRequestType.testBit 7 = false)
    (hnz : s.setup.wLength ≠ 0) (hcap : cap < s.setup.wLength) :
    usbfs_handle_setup env cap s =
      ({ s with bytes := 0 }, [HwAction.stallIn, HwAction.prepareSetup]) := by
  have h2 : ¬ (s.setup.wLength ≤ cap) := by omega
  simp [usbfs_handle_setup, hdir, hnz, h2]

/-- Witness for C4: a DFU_DNLOAD-coded packet declaring 300 bytes against a
256-byte buffer capacity is stalled with no data accepted. -/
theorem usbfs_oversized_reject_spec_wit :
    usbfs_handle_setup defaultDfuEnv 256
        { stateWithBytes 0 with
            setup := { bmRequestType := 0x21, bRequest := 1, wValue := 0, wIndex := 0, wLength := 300 } } =
      ({ stateWithBytes 0 with
           setup := { bmRequestType := 0x21, bRequest := 1, wValue := 0, wIndex := 0, wLength := 300 },
           bytes := 0 },
       [HwAction.stallIn, HwAction.prepareSetup]) := by
  have h := usbfs_oversized_reject_spec defaultDfuEnv 256
    { stateWithBytes 0 with
        setup := { bmRequestType := 0x21, bRequest := 1, wValue := 0, wIndex := 0, wLength := 300 } }
    (by decide) (by decide) (by decide)
  exact h.trans (by decide)

/-- C5: for every device-to-host setup packet whose dispatch succeeds with
reported length `R`, `usbfs_handle_setup` sets the IN data stage to exactly
`min R wLength` bytes, arms the first IN chunk of
`min (min R wLength) 64` bytes and simultaneously arms OUT for the status
ack.  The GET_DESCRIPTOR device scenario is the witness below. -/
theorem usbfs_in_arm_min_spec (env : DfuEnv) (cap : Nat) (s : UsbfsState)
    (R : Nat) (d : DataSrc) (hdir : s.setup.bmRequestType.testBit 7 = true)
    (hrun : usbfs_setup_handler_run env s.setup none = some (R, d)) :
    usbfs_handle_setup env cap s =
      ({ s with bytes := min R s.setup.wLength, inData := d, inOff := 0 },
       setup_runActions s.setup ++
         [HwAction.armIn (usbfs_ep0in_transfer_len (min R s.setup.wLength)),
          HwAction.prepareOut]) := by
  simp [usbfs_handle_setup, hdir, hrun]

/-- Witness for C5: the setup packet
`{requestType=0x80, request=0x06, value=0x0100, index=0, length=64}`
(standard GET_DESCRIPTOR, device) matches the descriptor rule, the handler
reports the fixed 18-byte device descriptor, and the IN stage is armed with
`min(18,64) = 18` bytes plus the OUT status-ack arming. -/
theorem usbfs_in_arm_min_spec_wit :
    usbfs_handle_setup defaultDfuEnv 1024
        { stateWithBytes 0 with
            setup := { bmRequestType := 0x80, bRequest := 6, wValue := 0x0100, wIndex := 0, wLength := 64 } } =
      ({ stateWithBytes 0 with
           setup := { bmRequestType := 0x80, bRequest := 6, wValue := 0x0100, wIndex := 0, wLength := 64 },
           bytes := 18, inData := DataSrc.devDesc, inOff := 0 },
       [HwAction.runHandler HandlerFn.getDescriptor, HwAction.armIn 18,
        HwAction.prepareOut]) := by
  have h := usbfs_in_arm_min_spec defaultDfuEnv 1024
    { stateWithBytes 0 with
        setup := { bmRequestType := 0x80, bRequest := 6, wValue := 0x0100, wIndex := 0, wLength := 64 } }
    18 DataSrc.devDesc (by decide) (by decide)
  exact h.trans (by decide)

/-- C7: a newly received SETUP packet resets the transfer state to empty
before the dispatch table is consulted: from any reachable state — in
particular one with a partially completed IN or OUT data stage, i.e. any
in-flight remaining count `b` — `usbfs_handle_ep0` with the SETUP-complete
flag set produces exactly the outcome of `usbfs_handle_setup` on the emptied
state, so the in-flight transfer is discarded and its deferred handler is
never invoked (the only handler calls in the result are those the new
packet's dispatch makes). -/
theorem usbfs_setup_reset_spec (env : DfuEnv) (cap residual : Nat)
    (f : Ep0Flags) (s : UsbfsState) (b : Nat) (hf : f.stpf = true) :
    usbfs_handle_ep0 env cap residual f { s with bytes := b } =
      ((usbfs_handle_setup env cap { s with bytes := 0 }).1,
       (usbfs_handle_setup env cap { s with bytes := 0 }).2, false) := by
  rw [usbfs_handle_ep0_stpf env cap residual f _ hf,
    usbfs_handle_setup_ignores_bytes]

/-- Witness for C7: with 37 bytes of an OUT stage still outstanding, a SETUP
completion for a zero-length SET_CONFIGURATION(1) discards the in-flight
transfer and acks the new request from the emptied state. -/
theorem usbfs_setup_reset_spec_wit :
    usbfs_handle_ep0 defaultDfuEnv 1024 0
        { stpf := true, itf := false, otf := true }
        { stateWithBytes 0 with
            setup := { bmRequestType := 0, bRequest := 9, wValue := 1, wIndex := 0, wLength := 0 },
            bytes := 37 } =
      (( usbfs_handle_setup defaultDfuEnv 1024
           { stateWithBytes 0 with
               setup := { bmRequestType := 0, bRequest := 9, wValue := 1, wIndex := 0, wLength := 0 },
               bytes := 0 }).1,
       (usbfs_handle_setup defaultDfuEnv 1024
           { stateWithBytes 0 with
               setup := { bmRequestType := 0, bRequest := 9, wValue := 1, wIndex := 0, wLength := 0 },
               bytes := 0 }).2, false) := by
  exact usbfs_setup_reset_spec defaultDfuEnv 1024 0
    { stpf := true, itf := false, otf := true }
    { stateWithBytes 0 with
        setup := { bmRequestType := 0, bRequest := 9, wValue := 1, wIndex := 0, wLength := 0 } }
    37 rfl

/-- C9: an EP0 endpoint event with no SETUP flag pending, a zero remaining
count and the reboot-pending flag set triggers the system reset: the trace is
exactly the DBG key-unlock write followed by the DBG reset command, and the
terminal marker records that control does not return
(`__builtin_unreachable()`, usbfs.c line 612). -/
theorem usbfs_reboot_on_ack_spec (env : DfuEnv) (cap residual : Nat)
    (f : Ep0Flags) (s : UsbfsState) (h1 : f.stpf = false) (h2 : s.bytes = 0)
    (h3 : s.rebootOnAck = true) :
    usbfs_handle_ep0 env cap residual f s =
      (s, [HwAction.dbgKeyUnlock, HwAction.dbgCmdReset], true) := by
  simp [usbfs_handle_ep0, h1, h2, h3]

/-- Witness for C9: the IN-acknowledgement completion (IN transfer-complete
flag, remaining count zero) with reboot pending performs the two DBG writes
and terminates. -/
theorem usbfs_reboot_on_ack_spec_wit :
    usbfs_handle_ep0 defaultDfuEnv 1024 0 inTFflags
        { stateWithBytes 0 with rebootOnAck := true } =
      ({ stateWithBytes 0 with rebootOnAck := true },
       [HwAction.dbgKeyUnlock, HwAction.dbgCmdReset], true) := by
  exact usbfs_reboot_on_ack_spec defaultDfuEnv 1024 0 inTFflags
    { stateWithBytes 0 with rebootOnAck := true } rfl rfl rfl

/-- The armed IN packet lengths contributed by the transfer-complete events
after the initial arm, as a function of the remaining count: while more than
64 bytes remain each event arms the next chunk of the decremented remainder;
at 64 or fewer remaining bytes the transfer just finishes. -/
def inTailChunks (b : Nat) : List Nat :=
  if h : 64 < b then usbfs_ep0in_transfer_len (b - 64) :: inTailChunks (b - 64)
  else []
termination_by b
decreasing_by omega

theorem inTailChunks_nil (b : Nat) (h : ¬ 64 < b) : inTailChunks b = [] := by
  unfold inTailChunks
  rw [dif_neg h]

theorem inTailChunks_cons (b : Nat) (h : 64 < b) :
    inTailChunks b = usbfs_ep0in_transfer_len (b - 64) :: inTailChunks (b - 64) := by
  conv_lhs => unfold inTailChunks
  rw [dif_pos h]

theorem iterInEvents_drained (env : DfuEnv) (cap fuel : Nat) (s : UsbfsState)
    (h : s.bytes = 0) : iterInEvents env cap fuel s = [] := by
  cases fuel with
  | zero => rfl
  | succ n => simp [iterInEvents, h]

theorem usbfs_handle_ep0_in_big (env : DfuEnv) (cap : Nat) (s : UsbfsState)
    (h : 64 < s.bytes) :
    usbfs_handle_ep0 env cap 0 inTFflags s =
      ({ s with inOff := s.inOff + 64, bytes := s.bytes - 64 },
       [HwAction.armIn (usbfs_ep0in_transfer_len (s.bytes - 64))], false) := by
  have hb : s.bytes ≠ 0 := by omega
  simp [usbfs_handle_ep0, inTFflags, hb, h]

theorem usbfs_handle_ep0_in_small (env : DfuEnv) (cap : Nat) (s : UsbfsState)
    (h0 : s.bytes ≠ 0) (h : ¬ 64 < s.bytes) :
    usbfs_handle_ep0 env cap 0 inTFflags s = ({ s with bytes := 0 }, [], false) := by
  simp [usbfs_handle_ep0, inTFflags, h0, h]

theorem armedLens_iterInEvents (env : DfuEnv) (cap : Nat) :
    ∀ (fuel : Nat) (s : UsbfsState), s.bytes ≤ fuel →
      armedLens (iterInEvents env cap fuel s) = inTailChunks s.bytes := by
  intro fuel
  induction fuel with
  | zero =>
    intro s hs
    have h0 : s.bytes = 0 := by omega
    rw [iterInEvents_drained env cap 0 s h0, h0, inTailChunks_nil 0 (by omega)]
    rfl
  | succ n ih =>
    intro s hs
    by_cases h0 : s.bytes = 0
    · rw [iterInEvents_drained env cap (n + 1) s h0, h0,
        inTailChunks_nil 0 (by omega)]
      rfl
    · by_cases hbig : 64 < s.bytes
      · rw [iterInEvents, if_neg h0, usbfs_handle_ep0_in_big env cap s hbig]
        have hrec := ih { s with inOff := s.inOff + 64, bytes := s.bytes - 64 }
          (by simp; omega)
        simp only [armedLens, List.filterMap_append] at hrec ⊢
        rw [hrec]
        rw [inTailChunks_cons s.bytes hbig]
        rfl
      · rw [iterInEvents, if_neg h0, usbfs_handle_ep0_in_small env cap s h0 hbig]
        rw [inTailChunks_nil s.bytes hbig]
        have hrec := ih { s with bytes := 0 } (by simp)
        simp only [armedLens] at hrec ⊢
        simp [hrec, inTailChunks_nil 0 (by omega)]

theorem inStageChunks_closed (env : DfuEnv) (cap : Nat) (s : UsbfsState)
    (N fuel : Nat) (hb : s.bytes = N) (hf : N ≤ fuel) :
    inStageChunks env cap s fuel = usbfs_ep0in_transfer_len N :: inTailChunks N := by
  unfold inStageChunks
  rw [armedLens_iterInEvents env cap fuel s (by omega), hb]

theorem inChunks_multiple : ∀ N : Nat, 0 < N → N % 64 = 0 →
    usbfs_ep0in_transfer_len N :: inTailChunks N = List.replicate (N / 64) 64 := by
  intro N
  induction N using Nat.strong_induction_on with
  | _ N ih =>
    intro hp hm
    by_cases hbig : 64 < N
    · have h1 : usbfs_ep0in_transfer_len N = 64 := by
        unfold usbfs_ep0in_transfer_len
        omega
      rw [h1, inTailChunks_cons N hbig,
        ih (N - 64) (by omega) (by omega) (by omega)]
      have h2 : N / 64 = (N - 64) / 64 + 1 := by omega
      rw [h2, List.replicate_succ]
    · have hN : N = 64 := by omega
      subst hN
      rw [inTailChunks_nil 64 (by omega)]
      decide

theorem inChunks_nonmultiple : ∀ N : Nat, 0 < N → N % 64 ≠ 0 →
    (usbfs_ep0in_transfer_len N :: inTailChunks N).getLast? = some (N % 64) ∧
    ¬ 0 ∈ usbfs_ep0in_transfer_len N :: inTailChunks N := by
  intro N
  induction N using Nat.strong_induction_on with
  | _ N ih =>
    intro hp hm
    by_cases hbig : 64 < N
    · have h1 : usbfs_ep0in_transfer_len N = 64 := by
        unfold usbfs_ep0in_transfer_len
        omega
      obtain ⟨ihl, ihm⟩ := ih (N - 64) (by omega) (by omega) (by omega)
      rw [h1, inTailChunks_cons N hbig]
      constructor
      · rw [List.getLast?_cons_cons, ihl]
        have : (N - 64) % 64 = N % 64 := by omega
        rw [this]
      · intro hmem
        rcases List.mem_cons.mp hmem with h | h
        · omega
        · exact ihm h
    · have hlt : N < 64 := by omega
      have h1 : usbfs_ep0in_transfer_len N = N := by
        unfold usbfs_ep0in_transfer_len
        omega
      rw [h1, inTailChunks_nil N hbig]
      constructor
      · have : N % 64 = N := by omega
        rw [this]
        rfl
      · intro hmem
        rcases List.mem_cons.mp hmem with h | h
        · omega
        · simp at h

/-- Counterexample for C2: an IN data stage of exactly 64 declared bytes (a
non-zero multiple of 64) arms the single 64-byte packet and nothing else —
the armed sequence does not end with a trailing zero-length packet.  The
completion event at 64 remaining bytes only clears the count (usbfs.c
line 625); no zero-length chunk is ever armed. -/
theorem usbfs_in_zlp_cex :
    inStageChunks defaultDfuEnv 0 (stateWithBytes 64) 64 = [64] ∧
    (inStageChunks defaultDfuEnv 0 (stateWithBytes 64) 64).getLast? ≠ some 0 := by
  decide

/-- C2 (amended): for an IN data stage with a non-zero declared byte count
`N` that is a multiple of 64, the armed IN packets are exactly `N / 64`
chunks of 64 bytes — no trailing zero-length packet is armed; for `N` not a
multiple of 64, the last armed chunk is exactly `N mod 64` bytes and no
zero-length packet is armed. -/
theorem usbfs_in_chunks_spec (env : DfuEnv) (cap : Nat) (s : UsbfsState)
    (N fuel : Nat) (hb : s.bytes = N) (hf : N ≤ fuel) (hp : 0 < N) :
    (N % 64 = 0 →
      inStageChunks env cap s fuel = List.replicate (N / 64) 64 ∧
      ¬ 0 ∈ inStageChunks env cap s fuel) ∧
    (N % 64 ≠ 0 →
      (inStageChunks env cap s fuel).getLast? = some (N % 64) ∧
      ¬ 0 ∈ inStageChunks env cap s fuel) := by
  rw [inStageChunks_closed env cap s N fuel hb hf]
  constructor
  · intro hm
    refine ⟨inChunks_multiple N hp hm, ?_⟩
    rw [inChunks_multiple N hp hm]
    intro hmem
    have := List.eq_of_mem_replicate hmem
    omega
  · intro hm
    exact inChunks_nonmultiple N hp hm

/-- Witness for the amended C2: a 100-byte IN stage is armed as `[64, 36]` —
its last chunk is `100 mod 64 = 36` bytes and no zero-length packet occurs. -/
theorem usbfs_in_chunks_spec_wit :
    (inStageChunks defaultDfuEnv 0 (stateWithBytes 100) 100).getLast? = some 36 ∧
    ¬ 0 ∈ inStageChunks defaultDfuEnv 0 (stateWithBytes 100) 100 := by
  have h := (usbfs_in_chunks_spec defaultDfuEnv 0 (stateWithBytes 100) 100 100
    rfl (by omega) (by omega)).2 (by omega)
  exact h

/-- C3: for an OUT data stage, each OUT transfer-complete event decreases the
remaining count by the byte count the hardware actually reported
(`64 - residual`, usbfs.c line 628), not by an assumed 64, and re-arms
another OUT packet while bytes remain; once the full payload is received
(remaining count no larger than the received count) the dispatch runs a
second time on the stored setup packet with the filled buffer: a handler
returning 0 gets an empty IN acknowledgement armed, anything else stalls the
IN endpoint, and SETUP-only reception is re-armed in both cases. -/
theorem usbfs_out_progress_spec (env : DfuEnv) (cap residual : Nat)
    (s : UsbfsState) (_hres : residual ≤ 64) (hb : 0 < s.bytes) :
    (64 - residual < s.bytes →
      usbfs_handle_ep0 env cap residual outTFflags s =
        ({ s with bytes := s.bytes - (64 - residual) },
         [HwAction.prepareOut], false)) ∧
    (s.bytes ≤ 64 - residual →
      usbfs_handle_ep0 env cap residual outTFflags s =
        ({ s with bytes := 0 },
         setup_runActions s.setup ++
           (match usbfs_setup_handler_run env s.setup (some s.outBuf) with
            | some (0, _) => [HwAction.armIn 0, HwAction.prepareSetup]
            | _ => [HwAction.stallIn, HwAction.prepareSetup]),
         false)) := by
  have h0 : s.bytes ≠ 0 := by omega
  constructor
  · intro h
    simp [usbfs_handle_ep0, outTFflags, h0, h]
  · intro h
    have hno : ¬ (64 - residual < s.bytes) := by omega
    rcases hrun : usbfs_setup_handler_run env s.setup (some s.outBuf) with _ | ⟨r, d⟩
    · simp [usbfs_handle_ep0, outTFflags, hrun, h0, hno]
    · rcases r with _ | r
      · simp [usbfs_handle_ep0, outTFflags, hrun, h0, hno, usbfs_ep0in_transfer_len]
      · simp [usbfs_handle_ep0, outTFflags, hrun, h0, hno]

/-- Witness for C3: with 130 bytes outstanding and a residual of 0 the event
consumes 64 actually-received bytes, leaving 66 and re-arming OUT; with 30
outstanding and a residual of 34 (30 bytes received) the payload completes,
the dispatch (which finds no rule for the empty stored packet) fails, so IN
is stalled and SETUP-only reception re-armed. -/
theorem usbfs_out_progress_spec_wit :
    usbfs_handle_ep0 defaultDfuEnv 1024 0 outTFflags (stateWithBytes 130) =
      ({ stateWithBytes 130 with bytes := 66 }, [HwAction.prepareOut], false) ∧
    usbfs_handle_ep0 defaultDfuEnv 1024 34 outTFflags (stateWithBytes 30) =
      ({ stateWithBytes 30 with bytes := 0 },
       [HwAction.stallIn, HwAction.prepareSetup], false) := by
  constructor
  · have h := (usbfs_out_progress_spec defaultDfuEnv 1024 0
      (stateWithBytes 130) (by omega) (by decide)).1 (by decide)
    exact h.trans (by decide)
  · have h := (usbfs_out_progress_spec defaultDfuEnv 1024 34
      (stateWithBytes 30) (by omega) (by decide)).2 (by decide)
    exact h.trans (by decide)

theorem setup_discard_loop_drop :
    ∀ (fifo : List Nat) (len : Nat), 8 < len → fifo.length = (len + 3) / 4 →
      setup_discard_loop len fifo = fifo.drop (fifo.length - 2) := by
  intro fifo
  induction fifo with
  | nil =>
    intro len h1 h2
    simp at h2
    omega
  | cons w rest ih =>
    intro len h1 h2
    simp only [setup_discard_loop, if_pos h1]
    by_cases h4 : 8 < len - 4
    · have hlen : rest.length = (len - 4 + 3) / 4 := by
        simp at h2
        omega
      rw [ih (len - 4) h4 hlen]
      have h5 : 3 ≤ rest.length := by omega
      have h6 : (w :: rest).length - 2 = (rest.length - 2) + 1 := by
        simp
        omega
      rw [h6, List.drop_succ_cons]
    · have hl : rest.length = 2 := by
        simp at h2
        omega
      rcases rest with _ | ⟨a, rest2⟩
      · simp at hl
      · simp only [setup_discard_loop, if_neg h4]
        have h6 : (w :: a :: rest2).length - 2 = 1 := by
          simp at hl ⊢
          omega
        rw [h6, List.drop_succ_cons, List.drop_zero]

/-- C8: when `usbfs_handle_rxdata` drains a SETUP-flagged packet for
endpoint 0 whose byte count exceeds 8, the discard loop pops exactly the
leading words beyond the final two, and what is stored as the setup packet is
built from precisely the last two 4-byte words of the drained FIFO data (the
hypothesis ties the FIFO word count to the hardware byte count,
`ceil(bcount/4)` words). -/
theorem usbfs_rx_setup_tail_spec (pk : RxPacket) (s : UsbfsState)
    (h0 : pk.epnum = 0) (h1 : pk.isSetup = true) (h2 : 8 < pk.bcount)
    (h3 : pk.words.length = (pk.bcount + 3) / 4) :
    setup_discard_loop pk.bcount pk.words =
      pk.words.drop (pk.words.length - 2) ∧
    usbfs_handle_rxdata pk s =
      { s with
          setup := wordsToSetup ((pk.words.drop (pk.words.length - 2)).headD 0)
                     ((pk.words.drop (pk.words.length - 2)).tail.headD 0),
          outBuf := [] } := by
  have key := setup_discard_loop_drop pk.words pk.bcount h2 h3
  refine ⟨key, ?_⟩
  have hb : pk.bcount ≠ 0 := by omega
  simp [usbfs_handle_rxdata, h0, h1, hb, key]

/-- Witness for C8: a 16-byte SETUP drain over FIFO words `[1, 2, 3, 4]`
discards `[1, 2]` and stores the setup packet assembled from the final words
`3` and `4`. -/
theorem usbfs_rx_setup_tail_spec_wit :
    setup_discard_loop 16 [1, 2, 3, 4] = [3, 4] ∧
    usbfs_handle_rxdata { epnum := 0, bcount := 16, isSetup := true, words := [1, 2, 3, 4] }
        (stateWithBytes 0) =
      { stateWithBytes 0 with setup := wordsToSetup 3 4, outBuf := [] } := by
  have h := usbfs_rx_setup_tail_spec
    { epnum := 0, bcount := 16, isSetup := true, words := [1, 2, 3, 4] }
    (stateWithBytes 0) rfl rfl (by decide) (by decide)
  exact ⟨h.1.trans (by decide), h.2.trans (by decide)⟩

theorem usbfs_drain_loop_actions : ∀ (rx : List RxPacket) (s : UsbfsState),
    (usbfs_drain_loop rx s).2 = List.replicate rx.length HwAction.drainRx := by
  intro rx
  induction rx with
  | nil => intro s; rfl
  | cons pk rest ih =>
    intro s
    simp [usbfs_drain_loop, ih, List.replicate_succ]

theorem setup_runActions_no_drain (p : SetupPacket) :
    ¬ HwAction.drainRx ∈ setup_runActions p := by
  unfold setup_runActions
  rcases setup_handler_scan usbfs_setup_handlers p with _ | fn <;> simp

theorem usbfs_handle_setup_no_drain (env : DfuEnv) (cap : Nat)
    (s : UsbfsState) : ¬ HwAction.drainRx ∈ (usbfs_handle_setup env cap s).2 := by
  have hp := setup_runActions_no_drain s.setup
  unfold usbfs_handle_setup
  split
  · split <;> simp_all
  · split
    · split <;> simp_all
    · split <;> simp_all

theorem usbfs_handle_ep0_no_drain (env : DfuEnv) (cap residual : Nat)
    (f : Ep0Flags) (s : UsbfsState) :
    ¬ HwAction.drainRx ∈ (usbfs_handle_ep0 env cap residual f s).2.1 := by
  have hp := setup_runActions_no_drain s.setup
  have hs := usbfs_handle_setup_no_drain env cap s
  unfold usbfs_handle_ep0
  split
  · simpa using hs
  · split
    · split <;> simp_all
    · split
      · split <;> simp_all
      · split
        · split
          · simp_all
          · split <;> simp_all
        · simp_all

theorem usbfs_irq_post_no_drain (env : DfuEnv) (cap : Nat) (inp : IrqInput)
    (s1 : UsbfsState) :
    ¬ HwAction.drainRx ∈ (usbfs_irq_post env cap inp s1).2.1 := by
  have he : ¬ HwAction.drainRx ∈
      (usbfs_handle_endpoints env cap inp.residual inp.epFlag inp.ep0flags s1).2.1 := by
    unfold usbfs_handle_endpoints
    split
    · exact usbfs_handle_ep0_no_drain env cap inp.residual inp.ep0flags s1
    · simp
  unfold usbfs_irq_post usbfs_irq_after_drain
  split
  · simpa using he
  · split
    · simp_all
    · intro hc
      simp only [List.mem_append] at hc
      rcases hc with ((hc | hc) | hc) | hc
      · exact he hc
      · revert hc
        split <;> simp
      · revert hc
        split <;> simp
      · revert hc
        split <;> simp

/-- C6: within a single `USBFS_IRQHandler` invocation the receive FIFO is
completely drained first — the emitted trace is exactly one drain action per
queued packet followed by a tail containing no drain action, so every
endpoint or lifecycle action happens strictly after the FIFO is empty — and
when the EP0 SETUP-complete flag is pending the whole invocation behaves
exactly as if the IN/OUT data-transfer-complete flags were clear: SETUP
handling takes priority over and excludes data-transfer handling in that
call. -/
theorem usbfs_irq_order_spec (env : DfuEnv) (cap : Nat) (inp : IrqInput)
    (s : UsbfsState) :
    (∃ tail, (USBFS_IRQHandler env cap inp s).2.1 =
        List.replicate inp.rx.length HwAction.drainRx ++ tail ∧
      ¬ HwAction.drainRx ∈ tail) ∧
    (inp.ep0flags.stpf = true →
      USBFS_IRQHandler env cap inp s =
        USBFS_IRQHandler env cap
          { inp with ep0flags := { stpf := true, itf := false, otf := false } } s) := by
  constructor
  · refine ⟨(usbfs_irq_post env cap inp (usbfs_drain_loop inp.rx s).1).2.1,
      ?_, usbfs_irq_post_no_drain env cap inp (usbfs_drain_loop inp.rx s).1⟩
    unfold USBFS_IRQHandler
    rw [usbfs_drain_loop_actions]
  · intro hf
    have hep : ∀ s1, usbfs_handle_endpoints env cap inp.residual inp.epFlag
        inp.ep0flags s1 =
        usbfs_handle_endpoints env cap inp.residual inp.epFlag
          { stpf := true, itf := false, otf := false } s1 := by
      intro s1
      unfold usbfs_handle_endpoints
      split
      · rw [usbfs_handle_ep0_stpf env cap inp.residual inp.ep0flags s1 hf,
          usbfs_handle_ep0_stpf env cap inp.residual
            { stpf := true, itf := false, otf := false } s1 rfl]
      · rfl
    unfold USBFS_IRQHandler usbfs_irq_post
    simp only [hep]
    rfl

/-- Witness for C6: a concrete invocation with two queued FIFO packets, the
endpoint flag set and all three EP0 flags raised drains both packets first
and then behaves exactly as if only the SETUP flag were raised. -/
theorem usbfs_irq_order_spec_wit :
    (∃ tail, (USBFS_IRQHandler defaultDfuEnv 1024
        { rx := [ { epnum := 0, bcount := 16, isSetup := true, words := [1, 2, 3, 4] },
                  { epnum := 1, bcount := 4, isSetup := false, words := [5] } ],
          epFlag := true, ep0flags := { stpf := true, itf := true, otf := true },
          residual := 0, sp := false, wkup := false, rst := false, enumf := false }
        (stateWithBytes 0)).2.1 =
        List.replicate 2 HwAction.drainRx ++ tail ∧
      ¬ HwAction.drainRx ∈ tail) ∧
    USBFS_IRQHandler defaultDfuEnv 1024
        { rx := [ { epnum := 0, bcount := 16, isSetup := true, words := [1, 2, 3, 4] },
                  { epnum := 1, bcount := 4, isSetup := false, words := [5] } ],
          epFlag := true, ep0flags := { stpf := true, itf := true, otf := true },
          residual := 0, sp := false, wkup := false, rst := false, enumf := false }
        (stateWithBytes 0) =
      USBFS_IRQHandler defaultDfuEnv 1024
        { rx := [ { epnum := 0, bcount := 16, isSetup := true, words := [1, 2, 3, 4] },
                  { epnum := 1, bcount := 4, isSetup := false, words := [5] } ],
          epFlag := true, ep0flags := { stpf := true, itf := false, otf := false },
          residual := 0, sp := false, wkup := false, rst := false, enumf := false }
        (stateWithBytes 0) := by
  have h := usbfs_irq_order_spec defaultDfuEnv 1024
    { rx := [ { epnum := 0, bcount := 16, isSetup := true, words := [1, 2, 3, 4] },
              { epnum := 1, bcount := 4, isSetup := false, words := [5] } ],
      epFlag := true, ep0flags := { stpf := true, itf := true, otf := true },
      residual := 0, sp := false, wkup := false, rst := false, enumf := false }
    (stateWithBytes 0)
  exact ⟨h.1, h.2 rfl⟩
